import Mathlib

/-!
Shallow embedding of `src/main.py` (font-cut): the `FontSubsetter` class and
the driver's reporting helpers.  Python strings are modelled as `List Char`,
Python `set` as `Finset Char`, `sorted` as `Finset.sort (· ≤ ·)` (Python sorts
characters by code point, which is exactly `Char`'s linear order), and Python
exceptions as `Except` with an error type mirroring the exception classes
raised by the script.
-/

namespace FontCut

/-- Code points of the 33-character literal on line 95 of `main.py`:
the space character followed by the 32 ASCII punctuation characters
(`!` through `/`, `:` through `@`, `[` through `` ` ``, and the four
characters from `0x7B` to `~`). -/
def basicLatinCodes : List Nat :=
  [0x20, 0x21, 0x22, 0x23, 0x24, 0x25, 0x26, 0x27, 0x28, 0x29, 0x2A, 0x2B,
   0x2C, 0x2D, 0x2E, 0x2F, 0x3A, 0x3B, 0x3C, 0x3D, 0x3E, 0x3F, 0x40, 0x5B,
   0x5C, 0x5D, 0x5E, 0x5F, 0x60, 0x7B, 0x7C, 0x7D, 0x7E]

/-- The basic Latin set added when `keep_basic_latin` is true. -/
def basicLatinChars : List Char := basicLatinCodes.map Char.ofNat

/-- The ten ASCII digits added when `keep_numbers` is true (line 98). -/
def digitCodes : List Nat :=
  [0x30, 0x31, 0x32, 0x33, 0x34, 0x35, 0x36, 0x37, 0x38, 0x39]

/-- The ASCII digit characters `0123456789`. -/
def digitChars : List Char := digitCodes.map Char.ofNat

/-- Code points of the punctuation literal on line 102 of `main.py`, in source
order.  The line uses ASCII double and single quotes inside a single-quoted
Python string, so it parses as two adjacent literals that concatenate: the
update string is the 18 code units
`。，、；：？！""【】《》（）·—…` — the full-width marks, the ASCII double
quote twice, and middle dot, em dash, ellipsis.  As a set it has 17 distinct
characters and shares the double quote `0x22` with the basic Latin set. -/
def cjkPunctuationCodes : List Nat :=
  [0x3002, 0xFF0C, 0x3001, 0xFF1B, 0xFF1A, 0xFF1F, 0xFF01, 0x22, 0x22,
   0x3010, 0x3011, 0x300A, 0x300B, 0xFF08, 0xFF09, 0xB7, 0x2014, 0x2026]

/-- The punctuation characters added when `keep_punctuation` is true. -/
def cjkPunctuationChars : List Char := cjkPunctuationCodes.map Char.ofNat

/-- The set `unique_chars` built by `prepare_text` (lines 87–102):
`set(text)`, then `update`d with each fixed set whose flag is enabled. -/
def prepared_set (text : List Char)
    (keep_basic_latin keep_numbers keep_punctuation : Bool) : Finset Char :=
  let unique_chars := text.toFinset
  let unique_chars :=
    if keep_basic_latin then unique_chars ∪ basicLatinChars.toFinset
    else unique_chars
  let unique_chars :=
    if keep_numbers then unique_chars ∪ digitChars.toFinset
    else unique_chars
  let unique_chars :=
    if keep_punctuation then unique_chars ∪ cjkPunctuationChars.toFinset
    else unique_chars
  unique_chars

/-- `FontSubsetter.prepare_text` (lines 87–104): build `unique_chars` and
return `''.join(sorted(unique_chars))`, i.e. the set listed in ascending
code-point order. -/
def prepare_text (text : List Char)
    (keep_basic_latin keep_numbers keep_punctuation : Bool) : List Char :=
  (prepared_set text keep_basic_latin keep_numbers keep_punctuation).sort (· ≤ ·)

/-- Membership in the set built by `prepare_text`, unfolded flag by flag. -/
theorem mem_prepared_set {c : Char} {text : List Char} {b n p : Bool} :
    c ∈ prepared_set text b n p ↔
      c ∈ text ∨ (b = true ∧ c ∈ basicLatinChars) ∨
        (n = true ∧ c ∈ digitChars) ∨ (p = true ∧ c ∈ cjkPunctuationChars) := by
  unfold prepared_set
  cases b <;> cases n <;> cases p <;>
    simp [Finset.mem_union, List.mem_toFinset]

/-- Membership in the output of `prepare_text`. -/
theorem mem_prepare_text {c : Char} {text : List Char} {b n p : Bool} :
    c ∈ prepare_text text b n p ↔
      c ∈ text ∨ (b = true ∧ c ∈ basicLatinChars) ∨
        (n = true ∧ c ∈ digitChars) ∨ (p = true ∧ c ∈ cjkPunctuationChars) := by
  unfold prepare_text
  rw [Finset.mem_sort]
  exact mem_prepared_set

set_option maxRecDepth 100000

/-- C1: for every input string and every combination of the three boolean
flags, the string returned by `prepare_text` contains no duplicate characters,
and the set of its characters is a superset of the set of characters of the
input string. -/
theorem prepare_text_nodup_and_superset (text : List Char) (b n p : Bool) :
    (prepare_text text b n p).Nodup ∧
      ∀ c ∈ text, c ∈ prepare_text text b n p := by
  constructor
  · exact Finset.sort_nodup _ _
  · intro c hc
    exact mem_prepare_text.mpr (Or.inl hc)

/-- Witness for C1 at the one-character input `"A"` with all flags false. -/
theorem prepare_text_nodup_and_superset_witness :
    (prepare_text [Char.ofNat 0x41] false false false).Nodup ∧
      Char.ofNat 0x41 ∈ prepare_text [Char.ofNat 0x41] false false false :=
  ⟨(prepare_text_nodup_and_superset [Char.ofNat 0x41] false false false).1,
   (prepare_text_nodup_and_superset [Char.ofNat 0x41] false false false).2 _
     (by decide)⟩

/-- C3: `prepare_text` is monotone in each of the three flags — enabling a
flag can only grow the set of characters of the result, the other two flags
and the input being identical. -/
theorem prepare_text_flag_monotone (text : List Char) (b n p : Bool) :
    (∀ c ∈ prepare_text text false n p, c ∈ prepare_text text true n p) ∧
      (∀ c ∈ prepare_text text b false p, c ∈ prepare_text text b true p) ∧
      (∀ c ∈ prepare_text text b n false, c ∈ prepare_text text b n true) := by
  refine ⟨?_, ?_, ?_⟩ <;> intro c hc <;>
    rw [mem_prepare_text] at hc ⊢ <;> simp only [] at hc ⊢ <;> tauto

/-- Witness for C3: the character `A` survives enabling the basic-Latin
flag on input `"A"`. -/
theorem prepare_text_flag_monotone_witness :
    Char.ofNat 0x41 ∈ prepare_text [Char.ofNat 0x41] true false false :=
  (prepare_text_flag_monotone [Char.ofNat 0x41] false false false).1 _
    (mem_prepare_text.mpr (Or.inl (by decide)))

/-- C9: `prepare_text` is idempotent (reapplying it to its own output with the
same flags changes nothing) and permutation-invariant (two inputs with the
same character set give identical outputs). -/
theorem prepare_text_idempotent_and_perm_invariant (t1 t2 : List Char)
    (b n p : Bool) :
    prepare_text (prepare_text t1 b n p) b n p = prepare_text t1 b n p ∧
      (t1.toFinset = t2.toFinset →
        prepare_text t1 b n p = prepare_text t2 b n p) := by
  constructor
  · have h : prepared_set (prepare_text t1 b n p) b n p =
        prepared_set t1 b n p := by
      ext c
      rw [mem_prepared_set, mem_prepared_set, mem_prepare_text]
      tauto
    calc prepare_text (prepare_text t1 b n p) b n p
        = (prepared_set (prepare_text t1 b n p) b n p).sort (· ≤ ·) := rfl
      _ = (prepared_set t1 b n p).sort (· ≤ ·) := by rw [h]
      _ = prepare_text t1 b n p := rfl
  · intro h
    unfold prepare_text prepared_set
    rw [h]

/-- Witness for C9: `"AB"` and `"BAA"` have the same character set, hence
identical `prepare_text` outputs. -/
theorem prepare_text_idempotent_and_perm_invariant_witness :
    prepare_text [Char.ofNat 0x41, Char.ofNat 0x42] false false false =
      prepare_text [Char.ofNat 0x42, Char.ofNat 0x41, Char.ofNat 0x41]
        false false false :=
  (prepare_text_idempotent_and_perm_invariant
    [Char.ofNat 0x41, Char.ofNat 0x42]
    [Char.ofNat 0x42, Char.ofNat 0x41, Char.ofNat 0x41]
    false false false).2 (by decide)

/-- C2 counterexample: with all flags true on the empty input the result has
59 distinct characters, not 56; the basic-Latin set has 33 characters (not
31), the punctuation set has 17 distinct characters (not 15), and the two are
not disjoint — they share the ASCII double quote `0x22`. -/
theorem prepare_text_allflags_counterexample :
    (prepare_text [] true true true).length = 59 ∧ (59 : Nat) ≠ 56 ∧
      basicLatinChars.toFinset.card = 33 ∧
      cjkPunctuationChars.toFinset.card = 17 ∧
      Char.ofNat 0x22 ∈ basicLatinChars.toFinset ∩ cjkPunctuationChars.toFinset := by
  refine ⟨?_, by decide, by decide, by decide, by decide⟩
  unfold prepare_text
  rw [Finset.length_sort]
  decide

/-- C2 amended: `prepare_text ""` with all flags false is empty; with all
flags true it is exactly the union of the three fixed sets, which have 33, 10
and 17 distinct characters, the digit set is disjoint from the other two, the
basic-Latin and punctuation sets overlap exactly in the double quote, and the
result has exactly 59 distinct characters. -/
theorem prepare_text_empty_and_allflags :
    prepare_text [] false false false = [] ∧
      (∀ c, c ∈ prepare_text [] true true true ↔
        (c ∈ basicLatinChars ∨ c ∈ digitChars ∨ c ∈ cjkPunctuationChars)) ∧
      basicLatinChars.toFinset.card = 33 ∧ digitChars.toFinset.card = 10 ∧
      cjkPunctuationChars.toFinset.card = 17 ∧
      basicLatinChars.toFinset ∩ cjkPunctuationChars.toFinset =
        {Char.ofNat 0x22} ∧
      basicLatinChars.toFinset ∩ digitChars.toFinset = ∅ ∧
      digitChars.toFinset ∩ cjkPunctuationChars.toFinset = ∅ ∧
      (prepare_text [] true true true).length = 59 := by
  refine ⟨?_, ?_, by decide, by decide, by decide, by decide, by decide,
    by decide, ?_⟩
  · unfold prepare_text
    simp [prepared_set]
  · intro c
    rw [mem_prepare_text]
    simp
  · unfold prepare_text
    rw [Finset.length_sort]
    decide

/-- Round `num / den` to the nearest integer, ties to the even neighbour:
the rounding Python's `:.1f` applies to the exactly-representable quotients
arising in `format_file_size` (a byte count divided by a power of two). -/
def round_half_even (num den : Nat) : Nat :=
  let q := num / den
  let r := num % den
  if 2 * r < den then q
  else if den < 2 * r then q + 1
  else if q % 2 = 0 then q else q + 1

/-- One-decimal rendering of `num / den`, as Python's f-string format
specifier `.1f` renders the exact quotient. -/
def fmt_one_decimal (num den : Nat) : String :=
  let t := round_half_even (num * 10) den
  toString (t / 10) ++ "." ++ toString (t % 10)

/-- `FontSubsetter.format_file_size` (lines 133-140): bytes below 1024,
kilobytes with one decimal below 1024², megabytes with one decimal above. -/
def format_file_size (size_bytes : Nat) : String :=
  if size_bytes < 1024 then toString size_bytes ++ " B"
  else if size_bytes < 1024 * 1024 then
    fmt_one_decimal size_bytes 1024 ++ " KB"
  else fmt_one_decimal size_bytes (1024 * 1024) ++ " MB"

/-- C7: unit thresholds of `format_file_size` sit at 1024 and 1024²; byte
counts below 1024 are rendered as bytes, below 1024² as kilobytes with one
decimal, and above as megabytes with one decimal; in particular 512 bytes,
2048 bytes and 2·1024·1024 bytes render as `512 B`, `2.0 KB`, `2.0 MB`. -/
theorem format_file_size_thresholds (n : Nat) :
    (n < 1024 → format_file_size n = toString n ++ " B") ∧
      (1024 ≤ n → n < 1024 * 1024 →
        format_file_size n = fmt_one_decimal n 1024 ++ " KB") ∧
      (1024 * 1024 ≤ n →
        format_file_size n = fmt_one_decimal n (1024 * 1024) ++ " MB") ∧
      format_file_size 512 = "512 B" ∧ format_file_size 2048 = "2.0 KB" ∧
      format_file_size (2 * 1024 * 1024) = "2.0 MB" := by
  refine ⟨?_, ?_, ?_, by decide, by decide, by decide⟩
  · intro h
    unfold format_file_size
    rw [if_pos h]
  · intro h1 h2
    unfold format_file_size
    rw [if_neg (by omega), if_pos h2]
  · intro h
    unfold format_file_size
    rw [if_neg (by omega), if_neg (by omega)]

/-- Witness for C7 at 512 bytes, 2048 bytes and 3 MiB. -/
theorem format_file_size_thresholds_witness :
    format_file_size 512 = toString 512 ++ " B" ∧
      format_file_size 2048 = fmt_one_decimal 2048 1024 ++ " KB" ∧
      format_file_size (3 * 1024 * 1024) =
        fmt_one_decimal (3 * 1024 * 1024) (1024 * 1024) ++ " MB" :=
  ⟨(format_file_size_thresholds 512).1 (by decide),
   (format_file_size_thresholds 2048).2.1 (by decide) (by decide),
   (format_file_size_thresholds (3 * 1024 * 1024)).2.2.1 (by decide)⟩

/-- C10: at the exact thresholds the larger unit wins: 1024 bytes renders as
`1.0 KB` and 1024² bytes as `1.0 MB`. -/
theorem format_file_size_exact_thresholds :
    format_file_size 1024 = "1.0 KB" ∧
      format_file_size (1024 * 1024) = "1.0 MB" := by
  exact ⟨by decide, by decide⟩

/-- Python exception values raised by the script, identified by exception
class and message, mirroring `FileNotFoundError`, `ValueError` and
`RuntimeError` as raised on lines 44, 48, 55 and 131. -/
inductive PyError
  | fileNotFoundError (msg : String)
  | valueError (msg : String)
  | runtimeError (msg : String)
deriving DecidableEq, Repr

/-- Split a character list at a separator, as Python splits a POSIX path at
the slashes. -/
def splitOnChar (sep : Char) : List Char → List (List Char)
  | [] => [[]]
  | c :: cs =>
    let rest := splitOnChar sep cs
    if c == sep then [] :: rest
    else
      match rest with
      | [] => [[c]]
      | r :: rs => (c :: r) :: rs

/-- The final component of a POSIX path, as pathlib's `Path(p).name`:
the last nonempty slash-separated piece. -/
def pathName (p : String) : List Char :=
  ((splitOnChar (Char.ofNat 0x2F) p.data).filter (fun l => !l.isEmpty)).getLastD []

/-- `Path(p).suffix` of pathlib: the extension of the final component from
its last dot on, and empty when there is no dot, the dot is leading (hidden
file), or the dot is final. -/
def pySuffix (p : String) : String :=
  let name := pathName p
  match name.reverse.findIdx? (fun c => c == Char.ofNat 0x2E) with
  | none => ""
  | some j =>
    let i := name.length - 1 - j
    if 0 < i ∧ i < name.length - 1 then String.mk (name.drop i) else ""

/-- ASCII lowercasing, which is how Python's `.lower()` acts on the ASCII
extension strings compared by `validate_font_file`. -/
def pyLower (s : String) : String := String.mk (s.data.map Char.toLower)

/-- `self.supported_formats` from `FontSubsetter.__init__` (line 39). -/
def supported_formats : List String := [".ttf", ".otf", ".woff", ".woff2"]

/-- Abstraction of the two external effects `validate_font_file` consults:
`os.path.exists(path)`, and whether `TTFont(path)` opens (`Except.ok ()`) or
raises with some message (`Except.error msg`). -/
structure FS where
  pathExists : String → Bool
  parseFont : String → Except String Unit

/-- `FontSubsetter.validate_font_file` (lines 41-55): nonexistent path
raises `FileNotFoundError`; an extension outside `supported_formats`
(lower-cased `Path.suffix`) raises `ValueError("不支持的字体格式: ...")`
before any parse is attempted; a failed `TTFont` open raises
`ValueError("无效的字体文件: ...")`; otherwise the probe font is closed and
`True` is returned. -/
def validate_font_file (fs : FS) (font_path : String) : Except PyError Bool :=
  if fs.pathExists font_path = false then
    Except.error (PyError.fileNotFoundError ("字体文件不存在: " ++ font_path))
  else
    let file_ext := pyLower (pySuffix font_path)
    if supported_formats.contains file_ext = false then
      Except.error (PyError.valueError ("不支持的字体格式: " ++ file_ext))
    else
      match fs.parseFont font_path with
      | Except.ok _ => Except.ok true
      | Except.error e =>
        Except.error (PyError.valueError ("无效的字体文件: " ++ e))

/-- One record of the font's `name` table: its `nameID` and the result of
`record.toUnicode()`, a call that may itself raise. -/
structure NameRecord where
  nameID : Nat
  toUnicodeResult : Except String String

/-- What `get_font_info` reads from an opened `TTFont`: the name-table
lookup (which raises when the table is absent) and `font.getBestCmap()`
(which may raise, or return `None`, or return a mapping). -/
structure FontData where
  nameTableResult : Except String (List NameRecord)
  bestCmapResult : Except String (Option (List (Nat × String)))

/-- Abstraction of the external effects `get_font_info` consults:
`TTFont(path)` and `os.path.getsize(path)`, each of which may raise. -/
structure FontWorld where
  openFont : String → Except String FontData
  getsize : String → Except String Nat

/-- The record returned by `get_font_info`. -/
structure FontInfo where
  name : String
  char_count : Nat
  file_size : Nat
deriving DecidableEq, Repr

/-- The loop over `name_table.names` (lines 65-68): the first record with
`nameID == 1` supplies the name through `toUnicode()`; absent such a record
the name stays `"Unknown"`. -/
def familyName (records : List NameRecord) : Except String String :=
  match records.find? (fun r => r.nameID == 1) with
  | none => Except.ok "Unknown"
  | some r => r.toUnicodeResult

/-- The body of the `try` in `get_font_info` (lines 59-83), with every
exception propagating. -/
def get_font_info_body (w : FontWorld) (font_path : String) :
    Except String FontInfo :=
  match w.openFont font_path with
  | Except.error e => Except.error e
  | Except.ok font =>
    match font.nameTableResult with
    | Except.error e => Except.error e
    | Except.ok names =>
      match familyName names with
      | Except.error e => Except.error e
      | Except.ok font_name =>
        match font.bestCmapResult with
        | Except.error e => Except.error e
        | Except.ok cmap =>
          let char_count := match cmap with
            | some m => m.length
            | none => 0
          match w.getsize font_path with
          | Except.error e => Except.error e
          | Except.ok file_size => Except.ok ⟨font_name, char_count, file_size⟩

/-- `FontSubsetter.get_font_info` (lines 57-85): the `try` body with any
exception swallowed and replaced by the sentinel record (line 85). -/
def get_font_info (w : FontWorld) (font_path : String) : FontInfo :=
  match get_font_info_body w font_path with
  | Except.ok info => info
  | Except.error _ => ⟨"Unknown", 0, 0⟩

/-- Abstraction of the pipeline in the `try` of `subset_font` (lines
112-127): `TTFont(input_path)`, `Subsetter()`, `populate(text=text)`,
`subset(font)`, `font.save(output_path)`, `font.close()`, collapsed into one
oracle for the outcome of that sequence — `.error msg` when any step raises
`msg`. -/
structure SubsetEngine where
  fs : FS
  runSteps : String → String → List Char → Except String Unit

/-- `FontSubsetter.subset_font` (lines 106-131): validate the input with
`validate_font_file` (its exceptions propagate unwrapped), then run the
subsetting steps, wrapping any exception from them as
`RuntimeError("字体裁剪失败: ...")`. -/
def subset_font (eng : SubsetEngine) (input_path output_path : String)
    (text : List Char) : Except PyError Bool :=
  match validate_font_file eng.fs input_path with
  | Except.error err => Except.error err
  | Except.ok _ =>
    match eng.runSteps input_path output_path text with
    | Except.ok _ => Except.ok true
    | Except.error e =>
      Except.error (PyError.runtimeError ("字体裁剪失败: " ++ e))

/-- The size-reduction report of `main` (lines 192-195): `none` when the
original size is 0 (both the computation and the print are skipped),
otherwise the printed percentage `(1 - subset_size / original_size) * 100`,
Python's true division modelled over `ℚ`. -/
def compression_report (original_size subset_size : Nat) : Option ℚ :=
  if 0 < original_size then
    some ((1 - (subset_size : ℚ) / (original_size : ℚ)) * 100)
  else none

/-- C4: `validate_font_file` fails with the file-not-found error when the
path does not exist; otherwise fails with the unsupported-format error when
the lower-cased extension is not in the allow-list, independently of what the
font parser would do (no parse is attempted); otherwise fails with the
invalid-font error when the parser raises; and the unsupported-format and
invalid-font failures are distinguishable error values for all messages. -/
theorem validate_font_file_spec :
    (∀ (fs : FS) (p : String), fs.pathExists p = false →
        validate_font_file fs p =
          Except.error (PyError.fileNotFoundError ("字体文件不存在: " ++ p))) ∧
      (∀ (fs : FS) (p : String), fs.pathExists p = true →
        supported_formats.contains (pyLower (pySuffix p)) = false →
          validate_font_file fs p =
              Except.error (PyError.valueError
                ("不支持的字体格式: " ++ pyLower (pySuffix p))) ∧
            ∀ parse2 : String → Except String Unit,
              validate_font_file ⟨fs.pathExists, parse2⟩ p =
                validate_font_file fs p) ∧
      (∀ (fs : FS) (p : String) (e : String), fs.pathExists p = true →
        supported_formats.contains (pyLower (pySuffix p)) = true →
        fs.parseFont p = Except.error e →
          validate_font_file fs p =
            Except.error (PyError.valueError ("无效的字体文件: " ++ e))) ∧
      ∀ ext e : String,
        PyError.valueError ("不支持的字体格式: " ++ ext) ≠
          PyError.valueError ("无效的字体文件: " ++ e) := by
  refine ⟨?_, ?_, ?_, ?_⟩
  · intro fs p h
    simp [validate_font_file, h]
  · intro fs p h1 h2
    have h2m : pyLower (pySuffix p) ∉ supported_formats := by simpa using h2
    constructor
    · simp [validate_font_file, h1, h2m]
    · intro parse2
      simp [validate_font_file, h1, h2m]
  · intro fs p e h1 h2 h3
    have h2m : pyLower (pySuffix p) ∈ supported_formats := by simpa using h2
    simp [validate_font_file, h1, h2m, h3]
  · intro ext e h
    injection h with h2
    have h3 : some '不' = some '无' := congrArg (fun s => s.data.head?) h2
    injection h3 with h4
    exact absurd h4 (by decide)

/-- A file-system view on which no path exists. -/
def fsNoFile : FS := ⟨fun _ => false, fun _ => Except.ok ()⟩

/-- A view on which every path exists and every `TTFont` open raises. -/
def fsBadFont : FS := ⟨fun _ => true, fun _ => Except.error "Not a TTF font"⟩

/-- Witness for C4: a missing path, an existing `.txt` path, and an existing
`.ttf` path whose parse fails. -/
theorem validate_font_file_spec_witness :
    validate_font_file fsNoFile "jhlst.ttf" =
        Except.error
          (PyError.fileNotFoundError ("字体文件不存在: " ++ "jhlst.ttf")) ∧
      validate_font_file fsBadFont "keep.txt" =
        Except.error (PyError.valueError
          ("不支持的字体格式: " ++ pyLower (pySuffix "keep.txt"))) ∧
      validate_font_file fsBadFont "jhlst.ttf" =
        Except.error
          (PyError.valueError ("无效的字体文件: " ++ "Not a TTF font")) :=
  ⟨validate_font_file_spec.1 fsNoFile "jhlst.ttf" rfl,
   (validate_font_file_spec.2.1 fsBadFont "keep.txt" rfl (by decide)).1,
   validate_font_file_spec.2.2.1 fsBadFont "jhlst.ttf" "Not a TTF font" rfl
     (by decide) rfl⟩

/-- C5: `get_font_info` never propagates a failure: whenever opening the
font, reading its name table, converting the family-name record, reading the
best character-to-glyph mapping, or reading the file size fails, the result
is the sentinel record with name `"Unknown"`, 0 characters, size 0. -/
theorem get_font_info_sentinel_on_failure (w : FontWorld) (p : String)
    (h : (∃ e, w.openFont p = Except.error e) ∨
      (∃ fd, w.openFont p = Except.ok fd ∧
        ((∃ e, fd.nameTableResult = Except.error e) ∨
          (∃ ns e, fd.nameTableResult = Except.ok ns ∧
            familyName ns = Except.error e) ∨
          (∃ e, fd.bestCmapResult = Except.error e))) ∨
      (∃ e, w.getsize p = Except.error e)) :
    get_font_info w p = ⟨"Unknown", 0, 0⟩ := by
  rcases hopen : w.openFont p with e | fd
  · simp [get_font_info, get_font_info_body, hopen]
  rcases hname : fd.nameTableResult with e | ns
  · simp [get_font_info, get_font_info_body, hopen, hname]
  rcases hfam : familyName ns with e | fn
  · simp [get_font_info, get_font_info_body, hopen, hname, hfam]
  rcases hcmap : fd.bestCmapResult with e | cm
  · simp [get_font_info, get_font_info_body, hopen, hname, hfam, hcmap]
  rcases hsize : w.getsize p with e | fsz
  · simp [get_font_info, get_font_info_body, hopen, hname, hfam, hcmap, hsize]
  exfalso
  rcases h with ⟨e, he⟩ | ⟨fd2, hfd2, hbad⟩ | ⟨e, he⟩
  · rw [hopen] at he
    simp at he
  · rw [hopen] at hfd2
    injection hfd2 with hfd3
    subst hfd3
    rcases hbad with ⟨e, he⟩ | ⟨ns2, e, hns2, he⟩ | ⟨e, he⟩
    · rw [hname] at he
      simp at he
    · rw [hname] at hns2
      injection hns2 with hns3
      subst hns3
      rw [hfam] at he
      simp at he
    · rw [hcmap] at he
      simp at he
  · rw [hsize] at he
    simp at he

/-- A world in which `TTFont` itself raises. -/
def wOpenFail : FontWorld :=
  ⟨fun _ => Except.error "Not a TTF or OTF file", fun _ => Except.ok 1024⟩

/-- Witness for C5: on a world whose font open raises, the sentinel record
comes back. -/
theorem get_font_info_sentinel_on_failure_witness :
    get_font_info wOpenFail "broken.ttf" = ⟨"Unknown", 0, 0⟩ :=
  get_font_info_sentinel_on_failure wOpenFail "broken.ttf"
    (Or.inl ⟨"Not a TTF or OTF file", rfl⟩)

/-- C6: `subset_font` re-validates the input with `validate_font_file`, whose
errors propagate unwrapped, and any failure of the later subsetting pipeline
is re-raised as the single `RuntimeError` whose message carries the
underlying cause. -/
theorem subset_font_spec (eng : SubsetEngine)
    (input_path output_path : String) (text : List Char) :
    (∀ err, validate_font_file eng.fs input_path = Except.error err →
        subset_font eng input_path output_path text = Except.error err) ∧
      ∀ b, validate_font_file eng.fs input_path = Except.ok b →
        ∀ e, eng.runSteps input_path output_path text = Except.error e →
          subset_font eng input_path output_path text =
            Except.error (PyError.runtimeError ("字体裁剪失败: " ++ e)) := by
  constructor
  · intro err h
    unfold subset_font
    rw [h]
  · intro b h e h2
    unfold subset_font
    rw [h, h2]

/-- An engine whose validation passes and whose pipeline raises. -/
def engStepsFail : SubsetEngine :=
  ⟨⟨fun _ => true, fun _ => Except.ok ()⟩,
   fun _ _ _ => Except.error "Glyph closure failed"⟩

/-- An engine whose input path does not exist. -/
def engNoFile : SubsetEngine :=
  ⟨⟨fun _ => false, fun _ => Except.ok ()⟩, fun _ _ _ => Except.ok ()⟩

/-- Witness for C6: the unwrapped `FileNotFoundError` on a missing input,
and the wrapped `RuntimeError` on a pipeline failure. -/
theorem subset_font_spec_witness :
    subset_font engNoFile "jhlst.ttf" "jhlst_sub.ttf" [] =
        Except.error
          (PyError.fileNotFoundError ("字体文件不存在: " ++ "jhlst.ttf")) ∧
      subset_font engStepsFail "jhlst.ttf" "jhlst_sub.ttf" [] =
        Except.error
          (PyError.runtimeError ("字体裁剪失败: " ++ "Glyph closure failed")) :=
  ⟨(subset_font_spec engNoFile "jhlst.ttf" "jhlst_sub.ttf" []).1 _ rfl,
   (subset_font_spec engStepsFail "jhlst.ttf" "jhlst_sub.ttf" []).2 true rfl
     _ rfl⟩

/-- C8: the driver's size-reduction percentage is skipped exactly when the
original file size is 0 — no division is reached — and otherwise is the
percentage `(1 - subset / original) * 100`. -/
theorem compression_report_guard (original_size subset_size : Nat) :
    (original_size = 0 →
        compression_report original_size subset_size = none) ∧
      (0 < original_size →
        compression_report original_size subset_size =
          some ((1 - (subset_size : ℚ) / (original_size : ℚ)) * 100)) := by
  constructor
  · intro h
    subst h
    rfl
  · intro h
    unfold compression_report
    rw [if_pos h]

/-- Witness for C8 at original sizes 0 and 1024. -/
theorem compression_report_guard_witness :
    compression_report 0 500 = none ∧
      compression_report 1024 512 =
        some ((1 - ((512 : Nat) : ℚ) / ((1024 : Nat) : ℚ)) * 100) :=
  ⟨(compression_report_guard 0 500).1 rfl,
   (compression_report_guard 1024 512).2 (by decide)⟩

end FontCut
